import Mathlib

/-
  Verification of the jupyter-ai-agents frontend against its specification.

  The definitions below are shallow embeddings of the TypeScript sources:
  - src/src/ChatWidget.tsx   (chat component, configure fetch, submit control)
  - src/src/Chat.tsx         (query client defaults, agent status check)
  - src/src/shadow/with-portal.tsx (ensurePortalRoot)
  - src/ChatRoot variants    (portal manager: slot map, handleElement)
  - src/lib/tool-icons       (getToolIcon)
  Backend pieces that exist in the repository but not under src/ are
  modelled from the spec and are marked as such in their doc comments.
-/

namespace JAI

/-! ## Configuration records (src/src/ChatWidget.tsx lines 42-56) -/

/-- Embeds interface IModelConfig: id, display name, supported builtin tools. -/
structure IModelConfig where
  id : String
  name : String
  builtin_tools : List String
deriving DecidableEq, Repr

/-- Embeds interface IBuiltinTool: name and id. -/
structure IBuiltinTool where
  name : String
  id : String
deriving DecidableEq, Repr

/-- Embeds interface IRemoteConfig: the configure response shape. -/
structure IRemoteConfig where
  models : List IModelConfig
  builtinTools : List IBuiltinTool
deriving DecidableEq, Repr

/-! ## The configure fetch (src/src/ChatWidget.tsx lines 58-61) -/

/-- An HTTP request as issued by the frontend: url and method. -/
structure HttpRequest where
  url : String
  method : String
deriving DecidableEq, Repr

/-- Embeds the request of getModels: fetch with no init defaults to GET on
the configure endpoint. -/
def getModelsRequest : HttpRequest :=
  { url := "/api/configure", method := "GET" }

/-- Embeds getModels: issue the request and decode the body as IRemoteConfig.
The environment respond maps a request to the decoded response body. -/
def getModels (respond : HttpRequest → IRemoteConfig) : IRemoteConfig :=
  respond getModelsRequest

/-! ## Agent status check (src/src/Chat.tsx lines 82-124) -/

/-- Embeds the configUrl construction of checkAgentStatus: ensure a slash
between the base url and the configure path. -/
def configureUrl (baseUrl : String) : String :=
  if baseUrl.endsWith "/" then baseUrl ++ "agent_runtimes/configure"
  else baseUrl ++ "/agent_runtimes/configure"

/-- Embeds the request issued by checkAgentStatus: explicit GET. -/
def agentStatusRequest (baseUrl : String) : HttpRequest :=
  { url := configureUrl baseUrl, method := "GET" }

/-- Possible outcomes of the single status fetch in checkAgentStatus. -/
inductive FetchOutcome where
  | ok
  | httpError (status : Nat) (text : String)
  | networkError (msg : String)
deriving DecidableEq, Repr

/-- Agent status recorded by checkAgentStatus in the agent store. -/
inductive AgentUpdate where
  | running
  | error (msg : String)
deriving DecidableEq, Repr

/-- Embeds the branch structure of checkAgentStatus (src/src/Chat.tsx lines
93-124): ok maps to running, 503 and every other failure map to an error
status; no branch issues a second fetch. -/
def checkAgentStatusUpdate : FetchOutcome → AgentUpdate
  | .ok => .running
  | .httpError 503 _ =>
      .error "Agent is initializing. Please ensure API keys are configured."
  | .httpError _ text => .error ("Agent status check failed: " ++ text)
  | .networkError msg => .error msg

/-! ## Query client defaults (src/src/Chat.tsx lines 16-23, identical in the
ChatRoot variants) -/

/-- Embeds the defaultOptions.queries record passed to the QueryClient. -/
structure QueryDefaults where
  retry : Nat
  refetchOnWindowFocus : Bool
deriving DecidableEq, Repr

/-- Embeds the queryClient construction: retry 1, refetchOnWindowFocus false. -/
def queryClientDefaults : QueryDefaults :=
  { retry := 1, refetchOnWindowFocus := false }

/-- Number of times a query is issued under the TanStack Query retry option
consumed by queryClientDefaults: after a failed attempt the query is
re-issued while retries remain; outcome n tells whether attempt n succeeds.
The attempt counter starts at 0 and remaining counts retries left. -/
def issueCountAux (outcome : Nat → Bool) : Nat → Nat → Nat
  | attempt, 0 => attempt + 1
  | attempt, r + 1 =>
      if outcome attempt then attempt + 1 else issueCountAux outcome (attempt + 1) r

/-- Total number of issues of a query configured with the given retry count. -/
def issueCount (retry : Nat) (outcome : Nat → Bool) : Nat :=
  issueCountAux outcome 0 retry

/-! ## Chat submit control (src/src/ChatWidget.tsx lines 66-137) -/

/-- Embeds the JavaScript String.prototype.trim used on the input value:
leading and trailing whitespace characters are removed. Written over the
character list so that it evaluates in the kernel. -/
def jsTrim (s : String) : String :=
  String.mk ((s.data.dropWhile Char.isWhitespace).reverse.dropWhile Char.isWhitespace).reverse

/-- Chat status values of the Vercel AI useChat hook as used by the widget. -/
inductive ChatStatus where
  | submitted
  | streaming
  | ready
  | error
deriving DecidableEq, Repr

/-- State of the chat component relevant to submission: the controlled input
value and the hook status. -/
structure ChatUIState where
  input : String
  status : ChatStatus
deriving DecidableEq, Repr

/-- Embeds the disabled prop of PromptInputSubmit (line 136):
status is submitted, or the trimmed input is blank. -/
def promptInputSubmitDisabled (st : ChatUIState) : Bool :=
  st.status == ChatStatus.submitted || jsTrim st.input == ""

/-- Embeds handleSubmit (lines 83-96): when the trimmed input is non-blank it
calls sendMessage once and clears the input; the status field is not
consulted. Returns the new state and the number of sendMessage calls. -/
def chatHandleSubmit (st : ChatUIState) : ChatUIState × Nat :=
  if jsTrim st.input == "" then (st, 0)
  else ({ st with input := "" }, 1)

/-- User-visible events of the chat component: editing the input, activating
the submit control, and a response completing. -/
inductive ChatEvent where
  | setInput (s : String)
  | submitClick
  | responseDone
deriving DecidableEq, Repr

/-- One step of the chat component driven through the UI: the submit control
fires handleSubmit only when it is not disabled; a send puts the hook into
the submitted status; a completed response returns it to ready. Returns the
new state and the number of requests sent by the step. -/
def stepUI (st : ChatUIState) : ChatEvent → ChatUIState × Nat
  | .setInput s => ({ st with input := s }, 0)
  | .submitClick =>
      if promptInputSubmitDisabled st then (st, 0)
      else
        let r := chatHandleSubmit st
        ({ r.1 with status := ChatStatus.submitted }, r.2)
  | .responseDone => ({ st with status := ChatStatus.ready }, 0)

/-- Runs a trace of UI events and counts the requests that were sent while a
request was already in flight (status submitted). -/
def runUI : ChatUIState → List ChatEvent → ChatUIState × Nat
  | st, [] => (st, 0)
  | st, ev :: evs =>
      let r := stepUI st ev
      let bad := if st.status == ChatStatus.submitted then r.2 else 0
      let rest := runUI r.1 evs
      (rest.1, bad + rest.2)

/-! ## Default model selection (src/src/ChatWidget.tsx lines 77-81) -/

/-- Embeds the default-model effect: when configQuery.data is present the
selected model becomes models[0].id. The indexing is embedded as Option:
a none result models the unguarded access on an empty list. The second
argument is the current model selection, kept when there is no data. -/
def selectedModelAfterConfig (data : Option IRemoteConfig) (model : String) :
    Option String :=
  match data with
  | none => some model
  | some cfg => cfg.models.head?.map (fun m => m.id)

/-! ## Tool icons (src/lib/tool-icons, source part_009 lines 16-23) -/

/-- Lucide icon components referenced by getToolIcon. -/
inductive LucideIcon where
  | GlobeIcon
  | CodeIcon
  | ImagePlusIcon
  | WrenchIcon
deriving DecidableEq, Repr

/-- A rendered icon element: the icon component and its className prop. -/
structure IconElem where
  icon : LucideIcon
  className : String
deriving DecidableEq, Repr

/-- Property names inherited from Object.prototype by every JavaScript
object literal; indexing the icon map with one of these yields the inherited
member, which is not nullish. -/
def OBJECT_PROTOTYPE_KEYS : List String :=
  ["constructor", "hasOwnProperty", "isPrototypeOf", "propertyIsEnumerable",
   "toLocaleString", "toString", "valueOf", "__proto__",
   "__defineGetter__", "__defineSetter__", "__lookupGetter__", "__lookupSetter__"]

/-- Result of getToolIcon: a rendered icon element, or the member inherited
from Object.prototype that the bracket access returns for prototype keys. -/
inductive ToolIconResult where
  | icon (el : IconElem)
  | inherited (member : String)
deriving DecidableEq, Repr

/-- Embeds getToolIcon with JavaScript property-access semantics: the bracket
access iconMap[toolId] first finds the three own properties, then walks the
prototype chain — for an Object.prototype key it returns the inherited
member, which is non-nullish, so the wrench fallback of the nullish
coalescing applies only when the access yields undefined. -/
def getToolIcon (toolId : String) (className : String) : ToolIconResult :=
  let iconMap : List (String × IconElem) :=
    [("web_search", ⟨LucideIcon.GlobeIcon, className⟩),
     ("code_execution", ⟨LucideIcon.CodeIcon, className⟩),
     ("image_generation", ⟨LucideIcon.ImagePlusIcon, className⟩)]
  match iconMap.lookup toolId with
  | some el => ToolIconResult.icon el
  | none =>
    if toolId ∈ OBJECT_PROTOTYPE_KEYS then ToolIconResult.inherited toolId
    else ToolIconResult.icon ⟨LucideIcon.WrenchIcon, className⟩

/-! ## Portal root (src/src/shadow/with-portal.tsx lines 15-37) -/

/-- Id of the portal root element. -/
def PORTAL_ROOT_ID : String := "datalayer-portal-root"

/-- A DOM element as far as ensurePortalRoot observes or creates it: its id,
the data-portal-root marker, and its style attribute text. -/
structure DomElement where
  id : String
  dataPortalRoot : Bool
  style : String
deriving DecidableEq, Repr

/-- The document body modelled as the ordered list of its elements. -/
abbrev Doc := List DomElement

/-- Embeds document.getElementById: the first element with the given id. -/
def getElementById (d : Doc) (i : String) : Option DomElement :=
  d.find? (fun e => e.id == i)

/-- The div created by ensurePortalRoot when no root exists yet. -/
def portalRootDiv : DomElement :=
  { id := PORTAL_ROOT_ID
    dataPortalRoot := true
    style := "position: fixed; left: 0; top: 0; width: 100%; height: 100%; pointer-events: none; z-index: 9999;" }

/-- Embeds ensurePortalRoot: return the existing element with the portal root
id, or create one and append it to the body. -/
def ensurePortalRoot (d : Doc) : Doc × DomElement :=
  match getElementById d PORTAL_ROOT_ID with
  | some root => (d, root)
  | none => (d ++ [portalRootDiv], portalRootDiv)

/-- Documents reachable in a page whose only creator of portal-root elements
is ensurePortalRoot: start empty, call ensurePortalRoot, or let other code
append elements that do not carry the portal root id. -/
inductive DocReachable : Doc → Prop where
  | empty : DocReachable []
  | ensure (d : Doc) : DocReachable d → DocReachable (ensurePortalRoot d).1
  | append (d : Doc) (e : DomElement) :
      DocReachable d → e.id ≠ PORTAL_ROOT_ID → DocReachable (d ++ [e])

/-- Number of elements of the document carrying the portal root id. -/
def countPortalRoots (d : Doc) : Nat :=
  d.countP (fun e => e.id == PORTAL_ROOT_ID)

/-! ## Portal manager (ChatRoot: source part_005 lines 34-180 and
part_004 lines 28-327) -/

/-- Portal types of the slot map. -/
inductive PortalType where
  | select
  | dropdown
  | tooltip
  | hoverCard
  | dialog
  | sheet
  | popover
  | portal
deriving DecidableEq, Repr

/-- Embeds SLOT_TYPE_MAP: the fixed map from data-slot values to portal
types. -/
def SLOT_TYPE_MAP : List (String × PortalType) :=
  [("select-content", PortalType.select),
   ("dropdown-menu-content", PortalType.dropdown),
   ("dropdown-menu-sub-content", PortalType.dropdown),
   ("tooltip-content", PortalType.tooltip),
   ("hover-card-content", PortalType.hoverCard),
   ("dialog-content", PortalType.dialog),
   ("dialog-overlay", PortalType.dialog),
   ("sheet-content", PortalType.sheet),
   ("sheet-overlay", PortalType.sheet),
   ("popover-content", PortalType.popover),
   ("portal-portal", PortalType.portal),
   ("select-portal", PortalType.select),
   ("dropdown-portal", PortalType.dropdown),
   ("popover-portal", PortalType.popover)]

/-- Theme modes handled by ChatRoot. -/
inductive ThemeMode where
  | light
  | dark
deriving DecidableEq, Repr

/-- A bounding client rectangle; coordinates are exact rationals standing for
the browser's floating point values. -/
structure Rect where
  top : Rat
  bottom : Rat
  left : Rat
  right : Rat
  width : Rat
  height : Rat
deriving DecidableEq, Repr

/-- A candidate trigger element inside the shadow root, with the attributes
the trigger selectors of handleElement test. -/
structure TriggerElem where
  dataSlot : Option String
  isButton : Bool
  ariaHasPopupMenu : Bool
  ariaExpanded : Bool
  roleButton : Bool
  dataStateOpen : Bool
  rect : Rect
deriving DecidableEq, Repr

/-- A CSS transform value: either opaque text, or the translate the manager
writes from computed pixel coordinates. -/
inductive CssTransform where
  | css (s : String)
  | translatePx (x y : Rat)
deriving DecidableEq, Repr

/-- Tests whether the transform is a translate written by the manager. -/
def CssTransform.isTranslatePx : CssTransform → Bool
  | .translatePx _ _ => true
  | .css _ => false

/-- Embeds the includes check on the transform text: a translate written by
the manager is plain pixel text and never contains the percent marker. -/
def containsNeg200 : CssTransform → Bool
  | .css s => decide (List.IsInfix "-200%".data s.data)
  | .translatePx _ _ => false

/-- Style of the wrapper (parent) element of a portal element. -/
structure WrapperStyle where
  transform : CssTransform
  position : String
  top : String
  left : String
deriving DecidableEq, Repr

/-- A portal element as handleElement observes and mutates it. Elements are
identified by eid; containerEid is the element findPortalContainer returns
(the closest container selector match, else the parent, else the element
itself). -/
structure PElement where
  eid : Nat
  containerEid : Nat
  dataSlot : Option String
  dataSide : Option String
  offsetWidth : Rat
  offsetHeight : Rat
  wrapper : Option WrapperStyle
  dataTheme : Option ThemeMode
  darkClass : Bool
deriving DecidableEq, Repr

/-- State owned by createPortalManager: the ensured root and injected styles,
the themed-element set (element ids), and the current theme. -/
structure PMState where
  rootPresent : Bool
  stylesInjected : Bool
  themed : List Nat
  currentTheme : ThemeMode
deriving DecidableEq, Repr

/-- Embeds applyTheme on the element itself: set data-theme and toggle the
dark class. -/
def applyThemeElem (theme : ThemeMode) (e : PElement) : PElement :=
  { e with dataTheme := some theme, darkClass := theme == ThemeMode.dark }

/-- Embeds ensureRoot plus the nodes.forEach loop of handleElement: the root
and styles exist afterwards and the element and its container enter the
themed-element set. -/
def trackNodes (st : PMState) (e : PElement) : PMState :=
  { st with
      rootPresent := true
      stylesInjected := true
      themed := (st.themed.insert e.eid).insert e.containerEid }

/-- Embeds the trigger search of the position fix (source part_004 lines
224-255): tooltip looks for the tooltip trigger slot, dropdown tries four
selectors in order, every other type looks for an open-state element. -/
def findTrigger (ty : PortalType) (sr : List TriggerElem) : Option TriggerElem :=
  match ty with
  | .tooltip => sr.find? (fun t => t.dataSlot == some "tooltip-trigger")
  | .dropdown =>
    match sr.find? (fun t => t.dataSlot == some "dropdown-menu-trigger") with
    | some t => some t
    | none =>
      match sr.find? (fun t => t.isButton && t.ariaHasPopupMenu) with
      | some t => some t
      | none =>
        match sr.find? (fun t => t.isButton && t.ariaExpanded) with
        | some t => some t
        | none => sr.find? (fun t => t.roleButton && t.ariaHasPopupMenu)
  | _ => sr.find? (fun t => t.dataStateOpen)

/-- Embeds the translate computation of the position fix (source part_004
lines 257-287): tooltip centers above the trigger, dropdown honors the
data-side attribute, everything else goes below; zero offsets fall back to
the hardcoded defaults because 0 is falsy in the source. -/
def fixedTranslate (ty : PortalType) (e : PElement) (rect : Rect) : Rat × Rat :=
  match ty with
  | .tooltip =>
    let h := if e.offsetHeight == 0 then 40 else e.offsetHeight
    let w := if e.offsetWidth == 0 then 100 else e.offsetWidth
    (rect.left + (rect.width - w) / 2, rect.top - h - 5)
  | .dropdown =>
    if e.dataSide == some "top" then
      let h := if e.offsetHeight == 0 then 200 else e.offsetHeight
      (rect.left, rect.top - h - 5)
    else (rect.left, rect.bottom + 5)
  | _ => (rect.left, rect.bottom + 5)

/-- Embeds handleElement of the ChatRoot with position fixing (source
part_004 lines 184-327): after the slot guard and theming, the wrapper's
transform is rewritten only when it contains the -200% marker, the shadow
root is available, and a trigger is found for the portal type. -/
def handleElementFix (shadowRoot : Option (List TriggerElem)) (st : PMState)
    (e : PElement) : PMState × PElement :=
  match e.dataSlot with
  | none => (st, e)
  | some slot =>
    match SLOT_TYPE_MAP.lookup slot with
    | none => (st, e)
    | some ty =>
      let st1 := trackNodes st e
      let e1 := applyThemeElem st.currentTheme e
      match e1.wrapper with
      | none => (st1, e1)
      | some w =>
        if containsNeg200 w.transform then
          match shadowRoot with
          | none => (st1, e1)
          | some sr =>
            match findTrigger ty sr with
            | none => (st1, e1)
            | some trig =>
              let xy := fixedTranslate ty e1 trig.rect
              (st1,
               { e1 with
                   wrapper := some
                     { transform := CssTransform.translatePx xy.1 xy.2
                       position := "fixed"
                       top := "0"
                       left := "0" } })
        else (st1, e1)

/-! ## Backend pieces absent from src (modelled from the spec) -/

/-- Modelled from the spec: the backend ConfigureHandler
(jupyter_ai_agents/chat/handler.py, absent from src) returns the frontend
configuration; its model and tool records follow PROGRESS.md's AIModel
example and carry unique identifiers, the only invariant the spec states. -/
def specConfigureResponse : IRemoteConfig :=
  { models :=
      [{ id := "anthropic:claude-sonnet-4.0"
         name := "Claude Sonnet 4.0"
         builtin_tools := ["jupyter_execute", "jupyter_read", "jupyter_files"] }]
    builtinTools :=
      [{ name := "Jupyter Execute", id := "jupyter_execute" },
       { name := "Jupyter Read", id := "jupyter_read" },
       { name := "Jupyter Files", id := "jupyter_files" }] }

/-- A chat request as forwarded to the backend chat handler. -/
structure ChatRequest where
  messages : List String
  model : String
  builtinTools : List String
deriving DecidableEq, Repr

/-- A chat handler response: the stub, or a forwarded agent stream. -/
inductive ChatResponse where
  | stub
  | agentStream (chunks : List String)
deriving DecidableEq, Repr

/-- Modelled from the spec: the backend ChatHandler
(jupyter_ai_agents/chat/handler.py, absent from src) currently returns a
stub response for every request instead of forwarding an agent stream. -/
def specChatHandler (_req : ChatRequest) : ChatResponse :=
  ChatResponse.stub

/-- An MCP server entry: id, name, URL, enabled flag, tool list. -/
structure MCPServer where
  id : String
  name : String
  url : String
  enabled : Bool
  tools : List String
deriving DecidableEq, Repr

/-- State of the MCP tool manager: its servers and the tools registered with
the agent. -/
structure MCPToolManagerState where
  servers : List MCPServer
  agentTools : List String
deriving DecidableEq, Repr

/-- Modelled from the spec: MCPToolManager.register_with_agent
(jupyter_ai_agents/chat/mcp_tools.py, absent from src) is a stub that
performs no registration, leaving the manager state unchanged. -/
def register_with_agent (st : MCPToolManagerState) : MCPToolManagerState :=
  st

/-! ## Theorems -/

/-- C1 counterexample: the claim says the query layer never re-issues a
failed configure request, but the queryClient is constructed with retry 1,
so a configure query whose attempts all fail is issued twice. -/
theorem configure_query_reissued_counterexample :
    queryClientDefaults.retry ≠ 0 ∧
    issueCount queryClientDefaults.retry (fun _ => false) = 2 :=
  ⟨by decide, rfl⟩

/-- C1 (amended): the query client re-issues a failed configure query exactly
once (retry 1) and then surfaces the failure; the agent status check maps
every non-ok outcome of its single fetch to an error status, and handleSubmit
issues at most one chat request per invocation — no other local retry
exists. -/
theorem configure_query_retry_once :
    queryClientDefaults.retry = 1 ∧
    (∀ outcome, issueCount queryClientDefaults.retry outcome ≤ 2) ∧
    issueCount queryClientDefaults.retry (fun _ => false) = 2 ∧
    (∀ s t, checkAgentStatusUpdate (FetchOutcome.httpError s t) ≠ AgentUpdate.running) ∧
    (∀ m, checkAgentStatusUpdate (FetchOutcome.networkError m) = AgentUpdate.error m) ∧
    (∀ st, (chatHandleSubmit st).2 ≤ 1) := by
  have haux : ∀ (outcome : Nat → Bool) (r a : Nat),
      issueCountAux outcome a r ≤ a + r + 1 := by
    intro outcome r
    induction r with
    | zero =>
      intro a
      simp [issueCountAux]
    | succ n ih =>
      intro a
      by_cases h : outcome a = true
      · simp only [issueCountAux, h, if_true]
        omega
      · simp only [issueCountAux, h, if_false, Bool.false_eq_true]
        have := ih (a + 1)
        omega
  refine ⟨rfl, ?_, rfl, ?_, fun m => rfl, ?_⟩
  · intro outcome
    have := haux outcome 1 0
    simpa [issueCount] using this
  · intro s t
    unfold checkAgentStatusUpdate
    split <;> simp_all
  · intro st
    unfold chatHandleSubmit
    split <;> simp

/-- C1 witness: the amended theorem applied at concrete outcomes — a 404
status check surfaces an error, and a succeeding query stays within two
issues. -/
theorem configure_query_retry_once_witness :
    checkAgentStatusUpdate (FetchOutcome.httpError 404 "not found") ≠ AgentUpdate.running ∧
    issueCount queryClientDefaults.retry (fun _ => true) ≤ 2 ∧
    (chatHandleSubmit ⟨"hello", ChatStatus.ready⟩).2 ≤ 1 :=
  ⟨configure_query_retry_once.2.2.2.1 404 "not found",
   configure_query_retry_once.2.1 (fun _ => true),
   configure_query_retry_once.2.2.2.2.2 ⟨"hello", ChatStatus.ready⟩⟩

/-- C2 counterexample: with the status submitted and a non-blank input,
handleSubmit still sends a message (its guard consults only the input), so
the claim that handleSubmit does not send while a request is in flight fails;
the submit control, however, is disabled in that state. -/
theorem handleSubmit_sends_while_submitted :
    (chatHandleSubmit ⟨"hi", ChatStatus.submitted⟩).2 = 1 ∧
    (chatHandleSubmit ⟨"hi", ChatStatus.submitted⟩).1.status = ChatStatus.submitted ∧
    promptInputSubmitDisabled ⟨"hi", ChatStatus.submitted⟩ = true := by
  decide

/-- C2 (amended): the submit control is disabled whenever the status is
submitted; handleSubmit itself guards only on a non-blank input, so the
single-in-flight property holds for submissions driven through the control:
a submit click in a submitted state changes nothing and sends nothing, and
along every UI trace no request is ever sent while one is in flight. -/
theorem submit_control_single_flight :
    (∀ input, promptInputSubmitDisabled ⟨input, ChatStatus.submitted⟩ = true) ∧
    (∀ st, st.status = ChatStatus.submitted →
      stepUI st ChatEvent.submitClick = (st, 0)) ∧
    (∀ st evs, (runUI st evs).2 = 0) := by
  have hdis : ∀ st : ChatUIState, st.status = ChatStatus.submitted →
      promptInputSubmitDisabled st = true := by
    intro st h
    simp [promptInputSubmitDisabled, h]
  have hstep : ∀ (st : ChatUIState) (ev : ChatEvent),
      st.status = ChatStatus.submitted → (stepUI st ev).2 = 0 := by
    intro st ev h
    cases ev with
    | setInput s => rfl
    | submitClick => simp [stepUI, hdis st h]
    | responseDone => rfl
  refine ⟨?_, ?_, ?_⟩
  · intro input
    exact hdis ⟨input, ChatStatus.submitted⟩ rfl
  · intro st h
    simp [stepUI, hdis st h]
  · intro st evs
    induction evs generalizing st with
    | nil => rfl
    | cons ev evs ih =>
      simp only [runUI, ih]
      by_cases h : st.status = ChatStatus.submitted
      · simp [h, hstep st ev h]
      · have : (st.status == ChatStatus.submitted) = false := by
          simp [h]
        simp [this]

/-- C2 witness: the amended theorem applied at a concrete submitted state. -/
theorem submit_control_single_flight_witness :
    stepUI ⟨"hi", ChatStatus.submitted⟩ ChatEvent.submitClick =
      (⟨"hi", ChatStatus.submitted⟩, 0) :=
  submit_control_single_flight.2.1 ⟨"hi", ChatStatus.submitted⟩ rfl

/-- C3: the frontend obtains the model/tool list with a GET request to the
configure endpoint, and the decoded response is exactly the IRemoteConfig
record of models and builtin tools; the agent status check likewise issues a
GET to a url ending in configure. -/
theorem configure_fetch_is_GET_model_tool_list :
    getModelsRequest.method = "GET" ∧
    getModelsRequest.url = "/api/configure" ∧
    (∀ respond, getModels respond = respond getModelsRequest) ∧
    (∀ respond, getModels respond =
      IRemoteConfig.mk (getModels respond).models (getModels respond).builtinTools) ∧
    (∀ b, List.IsSuffix "configure".data (configureUrl b).data) ∧
    (∀ b, (agentStatusRequest b).method = "GET") := by
  refine ⟨rfl, rfl, fun respond => rfl, fun respond => rfl, ?_, fun b => rfl⟩
  intro b
  have hsub : List.IsSuffix "configure".data "agent_runtimes/configure".data := by
    decide
  have hsub2 : List.IsSuffix "configure".data "/agent_runtimes/configure".data := by
    decide
  unfold configureUrl
  by_cases h : b.endsWith "/"
  · simpa [h, String.data_append] using hsub.trans (List.suffix_append b.data _)
  · simpa [h, String.data_append] using hsub2.trans (List.suffix_append b.data _)

/-- Translate targets are unaffected by theming, which only touches the
data-theme attribute and the dark class. -/
theorem fixedTranslate_theme_fields (ty : PortalType) (r : Rect) (e e2 : PElement)
    (hw : e2.offsetWidth = e.offsetWidth) (hh : e2.offsetHeight = e.offsetHeight)
    (hs : e2.dataSide = e.dataSide) :
    fixedTranslate ty e2 r = fixedTranslate ty e r := by
  cases ty <;> simp [fixedTranslate, hw, hh, hs]

/-- A portal manager state before any element was handled. -/
def pmLight : PMState :=
  { rootPresent := false, stylesInjected := false, themed := [], currentTheme := ThemeMode.light }

/-- A handled select-content element whose wrapper transform does not contain
the -200% marker. -/
def elNoMarker : PElement :=
  { eid := 1
    containerEid := 2
    dataSlot := some "select-content"
    dataSide := none
    offsetWidth := 0
    offsetHeight := 0
    wrapper := some
      { transform := CssTransform.css "translate(10px, 20px)"
        position := "absolute", top := "", left := "" }
    dataTheme := none
    darkClass := false }

/-- An open-state trigger element inside the shadow root. -/
def trigOpen : TriggerElem :=
  { dataSlot := none, isButton := false, ariaHasPopupMenu := false
    ariaExpanded := false, roleButton := false, dataStateOpen := true
    rect := { top := 100, bottom := 120, left := 50, right := 150, width := 100, height := 20 } }

/-- C4 counterexample: an element the manager handles (mapped slot, hence
themed and tracked) whose wrapper transform lacks the -200% marker keeps its
original transform even though an open trigger with a bounding rectangle is
available — its screen position is not re-computed, contradicting the claim
that every handled element is repositioned. -/
theorem portal_reposition_counterexample :
    (handleElementFix (some [trigOpen]) pmLight elNoMarker).2.dataTheme =
      some ThemeMode.light ∧
    (handleElementFix (some [trigOpen]) pmLight elNoMarker).1.themed = [2, 1] ∧
    (handleElementFix (some [trigOpen]) pmLight elNoMarker).2.wrapper =
      elNoMarker.wrapper ∧
    CssTransform.isTranslatePx (CssTransform.css "translate(10px, 20px)") = false := by
  decide

/-- C4 (amended): for every element the manager handles, the element is
themed and tracked; its wrapper transform is replaced by a translate derived
from the trigger's bounding rectangle exactly when the existing wrapper
transform contains the -200% marker, the shadow root is available, and a
trigger matching the portal type's selectors is found. The manager does not
re-parent elements; re-parenting across the shadow boundary is done by the
separate WithPortal React-portal component. -/
theorem portal_reposition_under_marker :
    ∀ sr st e slot ty w trig,
      e.dataSlot = some slot →
      SLOT_TYPE_MAP.lookup slot = some ty →
      e.wrapper = some w →
      containsNeg200 w.transform = true →
      findTrigger ty sr = some trig →
      (handleElementFix (some sr) st e).2.wrapper = some
        { transform := CssTransform.translatePx (fixedTranslate ty e trig.rect).1
            (fixedTranslate ty e trig.rect).2
          position := "fixed", top := "0", left := "0" } ∧
      (handleElementFix (some sr) st e).2.dataTheme = some st.currentTheme ∧
      (handleElementFix (some sr) st e).1.themed =
        (st.themed.insert e.eid).insert e.containerEid := by
  intro sr st e slot ty w trig h1 h2 h3 h4 h5
  have htr : fixedTranslate ty (applyThemeElem st.currentTheme e) trig.rect =
      fixedTranslate ty e trig.rect :=
    fixedTranslate_theme_fields ty trig.rect e (applyThemeElem st.currentTheme e) rfl rfl rfl
  have hw : (applyThemeElem st.currentTheme e).wrapper = some w := h3
  simp only [handleElementFix, h1, h2, hw, h4, h5, htr, if_true]
  refine ⟨?_, ?_, ?_⟩ <;> simp [trackNodes, applyThemeElem]

/-- A tooltip-content element whose wrapper carries the Radix -200% marker
transform. -/
def elTooltipMarked : PElement :=
  { eid := 3
    containerEid := 3
    dataSlot := some "tooltip-content"
    dataSide := none
    offsetWidth := 0
    offsetHeight := 0
    wrapper := some
      { transform := CssTransform.css "translate(0px, -200%)"
        position := "", top := "", left := "" }
    dataTheme := none
    darkClass := false }

/-- The tooltip trigger found in the shadow root for the witness. -/
def trigTooltip : TriggerElem :=
  { dataSlot := some "tooltip-trigger", isButton := true, ariaHasPopupMenu := false
    ariaExpanded := false, roleButton := false, dataStateOpen := false
    rect := { top := 200, bottom := 220, left := 60, right := 160, width := 100, height := 20 } }

/-- C4 witness: the amended theorem applied to a concrete marked tooltip. -/
theorem portal_reposition_under_marker_witness :
    (handleElementFix (some [trigTooltip]) pmLight elTooltipMarked).2.wrapper = some
      { transform := CssTransform.translatePx
          (fixedTranslate PortalType.tooltip elTooltipMarked trigTooltip.rect).1
          (fixedTranslate PortalType.tooltip elTooltipMarked trigTooltip.rect).2
        position := "fixed", top := "0", left := "0" } ∧
    (handleElementFix (some [trigTooltip]) pmLight elTooltipMarked).2.dataTheme =
      some pmLight.currentTheme ∧
    (handleElementFix (some [trigTooltip]) pmLight elTooltipMarked).1.themed =
      (pmLight.themed.insert elTooltipMarked.eid).insert elTooltipMarked.containerEid :=
  portal_reposition_under_marker [trigTooltip] pmLight elTooltipMarked
    "tooltip-content" PortalType.tooltip
    { transform := CssTransform.css "translate(0px, -200%)"
      position := "", top := "", left := "" }
    trigTooltip rfl (by decide) rfl (by decide) (by decide)

/-- C6: the records exchanged with the configure endpoint are plain value
records of the stated shape — a model descriptor is exactly its id, display
name and builtin tool list, the response is exactly its model list and
builtin tool list — and the spec-modelled backend response carries
identifiers unique within each list. -/
theorem configure_records_shape_unique_ids :
    (∀ m : IModelConfig, m = IModelConfig.mk m.id m.name m.builtin_tools) ∧
    (∀ t : IBuiltinTool, t = IBuiltinTool.mk t.name t.id) ∧
    (∀ r : IRemoteConfig, r = IRemoteConfig.mk r.models r.builtinTools) ∧
    (specConfigureResponse.models.map (fun m => m.id)).Nodup ∧
    (specConfigureResponse.builtinTools.map (fun t => t.id)).Nodup :=
  ⟨fun _ => rfl, fun _ => rfl, fun _ => rfl, by decide, by decide⟩

/-- C7: the chat handler and the MCP tool manager registration are stubs —
every chat request yields the stub response and never an agent stream, and
registering with the agent changes nothing. -/
theorem chat_handler_and_tool_manager_stubs :
    (∀ req, specChatHandler req = ChatResponse.stub) ∧
    (∀ req chunks, specChatHandler req ≠ ChatResponse.agentStream chunks) ∧
    (∀ st, register_with_agent st = st) ∧
    (∀ st, (register_with_agent st).agentTools = st.agentTools) :=
  ⟨fun _ => rfl, fun _ _ h => ChatResponse.noConfusion h, fun _ => rfl, fun _ => rfl⟩

/-- C7 witness: the stub theorem applied at a concrete request and a concrete
manager state. -/
theorem chat_handler_and_tool_manager_stubs_witness :
    specChatHandler { messages := ["hello"], model := "m", builtinTools := [] } =
      ChatResponse.stub ∧
    specChatHandler { messages := ["hello"], model := "m", builtinTools := [] } ≠
      ChatResponse.agentStream ["chunk"] ∧
    register_with_agent { servers := [], agentTools := [] } =
      { servers := [], agentTools := [] } :=
  ⟨chat_handler_and_tool_manager_stubs.1 { messages := ["hello"], model := "m", builtinTools := [] },
   chat_handler_and_tool_manager_stubs.2.1
     { messages := ["hello"], model := "m", builtinTools := [] } ["chunk"],
   chat_handler_and_tool_manager_stubs.2.2.1 { servers := [], agentTools := [] }⟩

/-- C8 counterexample: the claim says every toolId outside the three mapped
ones yields the wrench icon styled with the given className, but for the
toolId toString the bracket access finds the member inherited from
Object.prototype — non-nullish, so the wrench fallback is skipped and no
className is applied. -/
theorem getToolIcon_prototype_counterexample :
    getToolIcon "toString" "size-4" = ToolIconResult.inherited "toString" ∧
    getToolIcon "toString" "size-4" ≠
      ToolIconResult.icon ⟨LucideIcon.WrenchIcon, "size-4"⟩ := by
  decide

/-- C8 (amended): getToolIcon is total — the three mapped tool ids give the
globe, code and image icons styled with the given className; a toolId naming
an Object.prototype member returns that inherited member instead of an icon;
every other toolId gives the wrench icon styled with the given className. -/
theorem getToolIcon_total_default :
    (∀ cn, getToolIcon "web_search" cn = ToolIconResult.icon ⟨LucideIcon.GlobeIcon, cn⟩) ∧
    (∀ cn, getToolIcon "code_execution" cn = ToolIconResult.icon ⟨LucideIcon.CodeIcon, cn⟩) ∧
    (∀ cn, getToolIcon "image_generation" cn =
      ToolIconResult.icon ⟨LucideIcon.ImagePlusIcon, cn⟩) ∧
    (∀ t cn, t ∈ OBJECT_PROTOTYPE_KEYS →
      getToolIcon t cn = ToolIconResult.inherited t) ∧
    (∀ t cn, t ≠ "web_search" → t ≠ "code_execution" → t ≠ "image_generation" →
      t ∉ OBJECT_PROTOTYPE_KEYS →
      getToolIcon t cn = ToolIconResult.icon ⟨LucideIcon.WrenchIcon, cn⟩) := by
  refine ⟨fun cn => rfl, fun cn => rfl, fun cn => rfl, ?_, ?_⟩
  · intro t cn h
    fin_cases h <;> rfl
  · intro t cn h1 h2 h3 h4
    have b1 : (t == "web_search") = false := beq_eq_false_iff_ne.mpr h1
    have b2 : (t == "code_execution") = false := beq_eq_false_iff_ne.mpr h2
    have b3 : (t == "image_generation") = false := beq_eq_false_iff_ne.mpr h3
    simp [getToolIcon, List.lookup, b1, b2, b3, h4]

/-- C8 witness: an unmapped non-prototype tool id falls back to the wrench
icon with the default styling class, and a prototype key yields the
inherited member. -/
theorem getToolIcon_total_default_witness :
    getToolIcon "run_notebook" "size-4" =
      ToolIconResult.icon ⟨LucideIcon.WrenchIcon, "size-4"⟩ ∧
    getToolIcon "hasOwnProperty" "size-4" =
      ToolIconResult.inherited "hasOwnProperty" :=
  ⟨getToolIcon_total_default.2.2.2.2 "run_notebook" "size-4"
      (by decide) (by decide) (by decide) (by decide),
   getToolIcon_total_default.2.2.2.1 "hasOwnProperty" "size-4" (by decide)⟩

/-- C9: ensurePortalRoot is idempotent — when a portal root exists it is
returned and nothing is appended, a second call returns exactly the result
of the first, and in every reachable document at most one portal-root
element exists. -/
theorem ensurePortalRoot_idempotent :
    (∀ d e, getElementById d PORTAL_ROOT_ID = some e → ensurePortalRoot d = (d, e)) ∧
    (∀ d, ensurePortalRoot (ensurePortalRoot d).1 =
      ((ensurePortalRoot d).1, (ensurePortalRoot d).2)) ∧
    (∀ d, DocReachable d → countPortalRoots d ≤ 1) := by
  have hfind : ∀ d : Doc, getElementById d PORTAL_ROOT_ID = none →
      getElementById (d ++ [portalRootDiv]) PORTAL_ROOT_ID = some portalRootDiv := by
    intro d h
    unfold getElementById at h ⊢
    simp [List.find?_append, h]
    decide
  refine ⟨?_, ?_, ?_⟩
  · intro d e h
    simp [ensurePortalRoot, h]
  · intro d
    cases h : getElementById d PORTAL_ROOT_ID with
    | some e => simp [ensurePortalRoot, h]
    | none => simp [ensurePortalRoot, h, hfind d h]
  · intro d hd
    induction hd with
    | empty => decide
    | ensure d hd ih =>
      cases h : getElementById d PORTAL_ROOT_ID with
      | some e =>
        simpa [ensurePortalRoot, h] using ih
      | none =>
        have h0 : List.countP (fun e => e.id == PORTAL_ROOT_ID) d = 0 := by
          rw [List.countP_eq_zero]
          intro a ha
          exact List.find?_eq_none.mp h a ha
        simp [ensurePortalRoot, h, countPortalRoots, List.countP_append, h0]
        decide
    | append d e hd hne ih =>
      have he : (e.id == PORTAL_ROOT_ID) = false := by
        simp [hne]
      simpa [countPortalRoots, List.countP_append, List.countP_cons, he] using ih

/-- C9 witness: a document already holding the root is unchanged, and the
empty reachable document has at most one root. -/
theorem ensurePortalRoot_idempotent_witness :
    ensurePortalRoot [portalRootDiv] = ([portalRootDiv], portalRootDiv) ∧
    countPortalRoots [] ≤ 1 :=
  ⟨ensurePortalRoot_idempotent.1 [portalRootDiv] portalRootDiv (by decide),
   ensurePortalRoot_idempotent.2.2 [] DocReachable.empty⟩

/-- C10: when the configure response is present and its models list is
non-empty, the embedded indexing is defined and the selected model becomes
the first model's id; with an empty models list the indexing hits its None
branch, so non-emptiness is exactly the precondition the unguarded access
needs. -/
theorem default_model_first_id :
    (∀ cfg m m0 rest, cfg.models = m0 :: rest →
      selectedModelAfterConfig (some cfg) m = some m0.id) ∧
    (∀ cfg m, cfg.models = [] → selectedModelAfterConfig (some cfg) m = none) ∧
    (∀ m, selectedModelAfterConfig none m = some m) := by
  refine ⟨?_, ?_, fun m => rfl⟩
  · intro cfg m m0 rest h
    simp [selectedModelAfterConfig, h]
  · intro cfg m h
    simp [selectedModelAfterConfig, h]

/-- C10 witness: the theorem applied to a one-model configuration and to the
empty configuration. -/
theorem default_model_first_id_witness :
    selectedModelAfterConfig
      (some { models := [{ id := "anthropic:claude-sonnet-4.0"
                           name := "Claude Sonnet 4.0"
                           builtin_tools := [] }]
              builtinTools := [] }) "" = some "anthropic:claude-sonnet-4.0" ∧
    selectedModelAfterConfig (some { models := [], builtinTools := [] }) "m" = none :=
  ⟨default_model_first_id.1 _ ""
      { id := "anthropic:claude-sonnet-4.0", name := "Claude Sonnet 4.0", builtin_tools := [] }
      [] rfl,
   default_model_first_id.2.1 { models := [], builtinTools := [] } "m" rfl⟩

end JAI
